import Mathlib

/-!
Verification of the credit-card validator (`src/main.cpp`).

The C++ program is shallowly embedded below: each member function of
`CreditCard` and the control flow of `main` become pure Lean functions,
with strings as `String`/`List Char`, C++ `int` values as `Int`/`Nat`,
exceptions as explicit outcome constructors, and file/console output as
lists of the lines that would be written.
-/

namespace CardValidator

/-- The Luhn doubling step: double a digit and subtract 9 when the result
exceeds 9 (source lines 53-57). -/
def luhnDouble (n : Nat) : Nat :=
  if 2 * n > 9 then 2 * n - 9 else 2 * n

/-- The loop body of `CreditCard::validateCardNumber` (source lines 48-61),
expressed as a recursion over the characters visited in loop order
(right to left in the original string, so the list passed here is the
reversed character list).  `alternate` is the alternating flag; non-digit
characters contribute nothing and leave the flag unchanged. -/
def luhnLoop : Bool → List Char → Nat
  | _, [] => 0
  | alternate, c :: rest =>
    if c.isDigit then
      (if alternate then luhnDouble (c.toNat - 48) else (c.toNat - 48)) +
        luhnLoop (!alternate) rest
    else
      luhnLoop alternate rest

/-- `CreditCard::validateCardNumber` (source lines 43-64): Luhn sum over the
digits right to left, starting with the flag unset; valid iff the sum is
divisible by 10. -/
def validateCardNumber (cardNumber : String) : Bool :=
  luhnLoop false cardNumber.data.reverse % 10 == 0

/-- Specification-side Luhn sum, written directly from the spec's words:
the input is the digit values taken right to left, and every second digit
(the 2nd, 4th, ... from the right) is doubled with 9 subtracted when the
doubled value exceeds 9. -/
def specLuhnSum : List Nat → Nat
  | [] => 0
  | [d] => d
  | d1 :: d2 :: ds => d1 + luhnDouble d2 + specLuhnSum ds

/-- Specification-side Luhn sum when the first (rightmost remaining) digit
is in a doubled position. -/
def specLuhnSumD : List Nat → Nat
  | [] => 0
  | d :: ds => luhnDouble d + specLuhnSum ds

/-- The digit values of a string, rightmost first. -/
def digitValsRL (s : String) : List Nat :=
  s.data.reverse.map (fun c => c.toNat - 48)

theorem specLuhnSum_cons (d : Nat) (ds : List Nat) :
    specLuhnSum (d :: ds) = d + specLuhnSumD ds := by
  cases ds with
  | nil => simp [specLuhnSum, specLuhnSumD]
  | cons d2 ds' => simp [specLuhnSum, specLuhnSumD, Nat.add_assoc]

theorem luhnLoop_eq_spec (l : List Char) (h : ∀ c ∈ l, c.isDigit) :
    luhnLoop false l = specLuhnSum (l.map (fun c => c.toNat - 48)) ∧
    luhnLoop true l = specLuhnSumD (l.map (fun c => c.toNat - 48)) := by
  induction l with
  | nil => simp [luhnLoop, specLuhnSum, specLuhnSumD]
  | cons c rest ih =>
    have hc : c.isDigit := h c (by simp)
    have hrest : ∀ x ∈ rest, x.isDigit := fun x hx => h x (by simp [hx])
    obtain ⟨ih1, ih2⟩ := ih hrest
    constructor
    · simp only [luhnLoop, hc, if_pos, Bool.not_false, List.map_cons]
      rw [ih2, specLuhnSum_cons]
      simp
    · simp only [luhnLoop, hc, if_pos, Bool.not_true, List.map_cons]
      rw [ih1]
      simp [specLuhnSumD]

/-- C1: for every digit string of length 13-19, the Luhn checker returns
true exactly when the alternating-doubled right-to-left digit sum is
divisible by 10; moreover the test vector "4539578763621486" validates
true and the same string with its last digit incremented mod 10 validates
false. -/
theorem luhn_checker_correct :
    (∀ s : String, (∀ c ∈ s.data, c.isDigit) → 13 ≤ s.length → s.length ≤ 19 →
      (validateCardNumber s = true ↔ specLuhnSum (digitValsRL s) % 10 = 0)) ∧
    validateCardNumber "4539578763621486" = true ∧
    validateCardNumber "4539578763621487" = false := by
  refine ⟨fun s hdig _ _ => ?_, by decide, by decide⟩
  have h : ∀ c ∈ s.data.reverse, c.isDigit := by
    intro c hc
    exact hdig c (List.mem_reverse.mp hc)
  have := (luhnLoop_eq_spec s.data.reverse h).1
  unfold validateCardNumber digitValsRL
  rw [this]
  simp [Nat.beq_eq_true_eq]

/-- Witness for C1 at the concrete digit string "4539578763621486". -/
theorem luhn_checker_correct_witness :
    validateCardNumber "4539578763621486" = true ↔
      specLuhnSum (digitValsRL "4539578763621486") % 10 = 0 :=
  luhn_checker_correct.1 "4539578763621486" (by decide) (by decide) (by decide)

theorem luhnLoop_filter (alternate : Bool) (l : List Char) :
    luhnLoop alternate l = luhnLoop alternate (l.filter Char.isDigit) := by
  induction l generalizing alternate with
  | nil => rfl
  | cons c rest ih =>
    by_cases h : c.isDigit
    · simp only [luhnLoop, h, if_pos, List.filter_cons_of_pos h]
      rw [ih]
    · simp only [luhnLoop, h, if_neg, List.filter_cons_of_neg h, Bool.false_eq_true]
      exact ih alternate

/-- C8: non-digit characters neither contribute to the Luhn sum nor toggle
the alternation flag, so the Luhn result of any string equals the Luhn
result of the same string with all non-digit characters removed. -/
theorem luhn_ignores_non_digits :
    ∀ s : String, validateCardNumber s = validateCardNumber ⟨s.data.filter Char.isDigit⟩ := by
  intro s
  unfold validateCardNumber
  have : luhnLoop false s.data.reverse =
      luhnLoop false (String.data ⟨s.data.filter Char.isDigit⟩).reverse := by
    show luhnLoop false s.data.reverse = luhnLoop false (s.data.filter Char.isDigit).reverse
    rw [← List.filter_reverse]
    exact luhnLoop_filter false s.data.reverse
  rw [this]

/-- `CreditCard::detectCardType` (source lines 67-76): classification by
prefix, first match wins.  `cardNumber[0]` is modelled as the one-element
prefix and `substr(0, 2)` as the two-element prefix of the character
list (both agree with the C++ semantics, including on short strings). -/
def detectCardType (cardNumber : String) : String :=
  if cardNumber.data.take 1 = ['4'] then "Visa"
  else if cardNumber.data.take 2 = ['5', '1'] ∨ cardNumber.data.take 2 = ['5', '2'] then
    "MasterCard"
  else if cardNumber.data.take 2 = ['3', '4'] ∨ cardNumber.data.take 2 = ['3', '7'] then
    "American Express"
  else "Unknown"

/-- C3: network detection is a total pure function of the leading
characters checked in priority order; any two numbers with the same first
two characters classify identically, and the four example prefixes
classify as Visa, MasterCard, American Express and Unknown. -/
theorem network_detection :
    (∀ s t : String, s.data.take 2 = t.data.take 2 → detectCardType s = detectCardType t) ∧
    detectCardType "4000000000000000" = "Visa" ∧
    detectCardType "5100000000000000" = "MasterCard" ∧
    detectCardType "5200000000000000" = "MasterCard" ∧
    detectCardType "3400000000000000" = "American Express" ∧
    detectCardType "3700000000000000" = "American Express" ∧
    detectCardType "6000000000000000" = "Unknown" := by
  refine ⟨fun s t h => ?_, by decide, by decide, by decide, by decide, by decide, by decide⟩
  have h1 : s.data.take 1 = t.data.take 1 := by
    have hs : s.data.take 1 = (s.data.take 2).take 1 := by
      rw [List.take_take]
      norm_num
    have ht : t.data.take 1 = (t.data.take 2).take 1 := by
      rw [List.take_take]
      norm_num
    rw [hs, ht, h]
  unfold detectCardType
  rw [h1, h]

/-- Witness for C3: two concrete card numbers sharing the first two
characters classify identically. -/
theorem network_detection_witness :
    detectCardType "4100000000000" = detectCardType "4199999999999" :=
  network_detection.1 "4100000000000" "4199999999999" (by decide)

/-- The three terminal classifications of `CreditCard::checkExpiry`. -/
inductive ExpiryStatus where
  | expired
  | expiringSoon
  | valid
deriving DecidableEq

/-- The classification branch of `CreditCard::checkExpiry` (source lines
101-108), as a function of the parsed expiry month/year and the current
month/year taken from the system clock. -/
def classifyExpiry (month year currentMonth currentYear : Int) : ExpiryStatus :=
  if year < currentYear ∨ (year = currentYear ∧ month < currentMonth) then
    .expired
  else if (year = currentYear ∧ month - currentMonth ≤ 6) ∨
      (year = currentYear + 1 ∧ currentMonth > month) then
    .expiringSoon
  else
    .valid

/-- C2: the expiry classifier resolves to exactly one of three classes in
priority order — Expired iff `year < currentYear ∨ (year = currentYear ∧
month < currentMonth)`; otherwise ExpiringSoon iff `(year = currentYear ∧
month - currentMonth ≤ 6) ∨ (year = currentYear + 1 ∧ currentMonth >
month)`; otherwise Valid — and with current date 6/2024, expiry 03/24 is
Expired, 12/24 is ExpiringSoon and 01/26 is Valid. -/
theorem expiry_classifier :
    (∀ month year currentMonth currentYear : Int,
      (classifyExpiry month year currentMonth currentYear = .expired ↔
        (year < currentYear ∨ (year = currentYear ∧ month < currentMonth))) ∧
      (classifyExpiry month year currentMonth currentYear = .expiringSoon ↔
        ¬(year < currentYear ∨ (year = currentYear ∧ month < currentMonth)) ∧
        ((year = currentYear ∧ month - currentMonth ≤ 6) ∨
          (year = currentYear + 1 ∧ currentMonth > month))) ∧
      (classifyExpiry month year currentMonth currentYear = .valid ↔
        ¬(year < currentYear ∨ (year = currentYear ∧ month < currentMonth)) ∧
        ¬((year = currentYear ∧ month - currentMonth ≤ 6) ∨
          (year = currentYear + 1 ∧ currentMonth > month)))) ∧
    classifyExpiry 3 2024 6 2024 = .expired ∧
    classifyExpiry 12 2024 6 2024 = .expiringSoon ∧
    classifyExpiry 1 2026 6 2024 = .valid := by
  refine ⟨fun month year currentMonth currentYear => ?_, by decide, by decide, by decide⟩
  unfold classifyExpiry
  split_ifs with h1 h2 <;> simp_all

/-- C10: the classifier reports ExpiringSoon for dates more than six
months ahead — with current date 12/Y, any expiry month 1-11 of year Y+1
is ExpiringSoon. -/
theorem expiring_soon_beyond_six_months :
    ∀ (Y m : Int), 1 ≤ m → m ≤ 11 → classifyExpiry m (Y + 1) 12 Y = .expiringSoon := by
  intro Y m h1 h2
  have hc1 : ¬(Y + 1 < Y ∨ (Y + 1 = Y ∧ m < 12)) := by omega
  have hc2 : (Y + 1 = Y ∧ m - 12 ≤ 6) ∨ (Y + 1 = Y + 1 ∧ 12 > m) := by omega
  unfold classifyExpiry
  rw [if_neg hc1, if_pos hc2]

/-- Witness for C10: expiry 11/2025 evaluated in 12/2024, eleven months
before expiry, is ExpiringSoon. -/
theorem expiring_soon_beyond_six_months_witness :
    classifyExpiry 11 (2024 + 1) 12 2024 = .expiringSoon :=
  expiring_soon_beyond_six_months 2024 11 (by decide) (by decide)

/-- C++ `std::to_string` on an `int` value. -/
def cppIntToString (n : Int) : String :=
  if n < 0 then "-" ++ toString (-n).toNat else toString n.toNat

/-- `CreditCard::isCVVValid` (source lines 79-86): the digit count is the
length of `to_string(cvv)` because the CVV is stored in an `int` field. -/
def isCVVValid (cardType : String) (cvv : Int) : Bool :=
  if (cardType = "American Express" ∧ (cppIntToString cvv).length = 4) ∨
      (cardType ≠ "American Express" ∧ (cppIntToString cvv).length = 3) then
    true
  else
    false

/-- `CreditCard::maskCardNumber` (source lines 38-40): keep the last four
characters (`substr(length - 4)`). -/
def maskCardNumber (cardNumber : String) : String :=
  "XXXX-XXXX-XXXX-" ++ ⟨cardNumber.data.drop (cardNumber.length - 4)⟩

/-- Decimal value of a list of digit characters. -/
def digitsVal (l : List Char) : Nat :=
  l.foldl (fun acc c => acc * 10 + (c.toNat - 48)) 0

/-- C++ `std::stoi`: skip leading whitespace, read an optional sign and a
longest digit prefix; `none` models the `std::invalid_argument` exception
thrown when no digits are found.  `cin >> intVar` extracts numeric tokens
with the same semantics. -/
def stoiCpp (s : String) : Option Int :=
  let l := s.data.dropWhile (fun c => c.isWhitespace)
  let signed : Int × List Char :=
    match l with
    | '-' :: rest => (-1, rest)
    | '+' :: rest => (1, rest)
    | _ => (1, l)
  let ds := signed.2.takeWhile Char.isDigit
  if ds = [] then none else some (signed.1 * (digitsVal ds : Int))

/-- C++ `std::string::substr(pos, len)`: `none` models the
`std::out_of_range` exception thrown when `pos` exceeds the size. -/
def substrCpp (s : String) (pos len : Nat) : Option String :=
  if pos ≤ s.length then some ⟨(s.data.drop pos).take len⟩ else none

/-- The parsing prefix of `CreditCard::checkExpiry` (source lines 91-92):
`stoi(expiryDate.substr(0, 2))` and `stoi("20" + expiryDate.substr(3, 2))`;
`none` models an exception escaping to the catch-all handler in `main`. -/
def parseExpiry (expiryDate : String) : Option (Int × Int) :=
  match substrCpp expiryDate 0 2 with
  | none => none
  | some mm =>
    match stoiCpp mm with
    | none => none
    | some month =>
      match substrCpp expiryDate 3 2 with
      | none => none
      | some yy =>
        match stoiCpp ("20" ++ yy) with
        | none => none
        | some year => some (month, year)

/-- The four ways a run of `main` can end: the two thrown `CardException`s,
the catch-all branch, and a completed validation run carrying what
`displayCardInfo` computed. -/
inductive MainOutcome where
  | formatError
  | luhnError
  | unexpectedError
  | success (network : String) (cvvValid : Bool) (expiryStatus : ExpiryStatus)
deriving DecidableEq

/-- Observable result of one program run: which branch `main` ended in,
the process exit status, the lines written to `cerr`, and the lines
appended to `card_log.txt`. -/
structure RunOutput where
  outcome : MainOutcome
  exitCode : Nat
  errStream : List String
  logAppend : List String
deriving DecidableEq

/-- `main` (source lines 152-201) after the interactive reads: the length
guard (lines 176-177), the Luhn guard (lines 183-184), then
`displayCardInfo` (lines 122-132), which detects the card type, evaluates
the CVV policy, classifies the expiry (an expiry-parsing exception escapes
to the catch-all handler before `logToFile` runs) and finally appends the
4-line block plus a blank separator to the log (lines 112-119).  Every
branch returns exit status 0 (line 200). -/
def runMain (number expiry holder : String) (cvv : Int)
    (currentMonth currentYear : Int) : RunOutput :=
  if number.length < 13 ∨ number.length > 19 then
    ⟨.formatError, 0, ["❌ Invalid card number length!"], []⟩
  else if validateCardNumber number = false then
    ⟨.luhnError, 0, ["❌ Card number failed Luhn check! Invalid."], []⟩
  else
    let ct := detectCardType number
    let cvvOK := isCVVValid ct cvv
    match parseExpiry expiry with
    | none => ⟨.unexpectedError, 0, ["Unexpected error occurred!"], []⟩
    | some my =>
      ⟨.success ct cvvOK (classifyExpiry my.1 my.2 currentMonth currentYear), 0, [],
        ["Card Holder: " ++ holder, "Card Type: " ++ ct,
          "Masked Card: " ++ maskCardNumber number, "Expiry: " ++ expiry, ""]⟩

/-- C4: the CVV check accepts exactly (American Express with 4 digits) or
(non-American-Express with 3 digits); the four example combinations give
the stated verdicts; and the result is advisory — a run that passes the
length and Luhn guards and parses its expiry completes with the network,
the CVV verdict and the expiry status, and appends its log block, whatever
the CVV is. -/
theorem cvv_policy :
    (∀ (cardType : String) (cvv : Int),
      isCVVValid cardType cvv = true ↔
        ((cardType = "American Express" ∧ (cppIntToString cvv).length = 4) ∨
          (cardType ≠ "American Express" ∧ (cppIntToString cvv).length = 3))) ∧
    isCVVValid "American Express" 1234 = true ∧
    isCVVValid "American Express" 123 = false ∧
    isCVVValid "Visa" 123 = true ∧
    isCVVValid "Visa" 1234 = false ∧
    (∀ (number expiry holder : String) (cvv cm cy m y : Int),
      13 ≤ number.length → number.length ≤ 19 →
      validateCardNumber number = true →
      parseExpiry expiry = some (m, y) →
      (runMain number expiry holder cvv cm cy).outcome =
        .success (detectCardType number) (isCVVValid (detectCardType number) cvv)
          (classifyExpiry m y cm cy) ∧
      (runMain number expiry holder cvv cm cy).logAppend ≠ []) := by
  refine ⟨fun cardType cvv => ?_, by decide, by decide, by decide, by decide,
    fun number expiry holder cvv cm cy m y hlo hhi hluhn hexp => ?_⟩
  · unfold isCVVValid
    split_ifs with h <;> simp [h]
  · have hf : ¬(number.length < 13 ∨ number.length > 19) := by omega
    have hl : ¬(validateCardNumber number = false) := by simp [hluhn]
    simp [runMain, hf, hl, hexp]

/-- Witness for C4: a Visa run with the 4-digit CVV 1234 (an invalid CVV
for Visa) still completes its pipeline and appends its log block. -/
theorem cvv_policy_witness :
    (runMain "4539578763621486" "12/24" "Ada" 1234 6 2024).outcome =
      .success (detectCardType "4539578763621486")
        (isCVVValid (detectCardType "4539578763621486") 1234)
        (classifyExpiry 12 2024 6 2024) ∧
    (runMain "4539578763621486" "12/24" "Ada" 1234 6 2024).logAppend ≠ [] :=
  cvv_policy.2.2.2.2.2 "4539578763621486" "12/24" "Ada" 1234 6 2024 12 2024
    (by decide) (by decide) (by decide) (by decide)

/-- C5 evaluation: the CVV field is a C++ `int`, so the 3-digit entry
"045" is stored as 45, whose decimal representation has 2 digits, and a
non-American-Express card reports it invalid — the literal digit count is
not preserved. -/
theorem cvv_leading_zeros_lost :
    (stoiCpp "045").getD 0 = 45 ∧
    cppIntToString 45 = "45" ∧
    isCVVValid "Visa" ((stoiCpp "045").getD 0) = false := by
  refine ⟨by decide, by decide, by decide⟩

/-- C6: the run ends in FormatError exactly when the number's length is
below 13 or above 19, and in that case the whole observable output is the
error line alone — nothing was detected, checked, displayed or logged. -/
theorem format_guard :
    ∀ (number expiry holder : String) (cvv cm cy : Int),
      ((runMain number expiry holder cvv cm cy).outcome = .formatError ↔
        (number.length < 13 ∨ number.length > 19)) ∧
      ((number.length < 13 ∨ number.length > 19) →
        runMain number expiry holder cvv cm cy =
          ⟨.formatError, 0, ["❌ Invalid card number length!"], []⟩) := by
  intro number expiry holder cvv cm cy
  by_cases hf : number.length < 13 ∨ number.length > 19
  · exact ⟨by simp [runMain, hf], fun _ => by simp [runMain, hf]⟩
  · refine ⟨iff_of_false ?_ hf, fun h => absurd h hf⟩
    simp only [runMain, if_neg hf]
    split_ifs with hl
    · simp
    · cases hexp : parseExpiry expiry with
      | none => simp [hexp]
      | some my => simp [hexp]

/-- Witness for C6: a 3-character number is rejected with FormatError and
an otherwise empty output. -/
theorem format_guard_witness :
    runMain "123" "12/24" "Ada" 123 6 2024 =
      ⟨.formatError, 0, ["❌ Invalid card number length!"], []⟩ :=
  (format_guard "123" "12/24" "Ada" 123 6 2024).2 (by decide)

/-- C7: a number of accepted length that fails the Luhn check ends the run
in LuhnError with only the Luhn error line — no network, CVV or expiry
output and nothing appended to the log. -/
theorem luhn_error_aborts :
    ∀ (number expiry holder : String) (cvv cm cy : Int),
      13 ≤ number.length → number.length ≤ 19 →
      validateCardNumber number = false →
      runMain number expiry holder cvv cm cy =
        ⟨.luhnError, 0, ["❌ Card number failed Luhn check! Invalid."], []⟩ := by
  intro number expiry holder cvv cm cy hlo hhi hluhn
  have hf : ¬(number.length < 13 ∨ number.length > 19) := by omega
  simp [runMain, hf, hluhn]

/-- Witness for C7: the 16-digit number "4539578763621487" fails the Luhn
check and the run ends in LuhnError with an empty log append. -/
theorem luhn_error_aborts_witness :
    runMain "4539578763621487" "12/24" "Ada" 123 6 2024 =
      ⟨.luhnError, 0, ["❌ Card number failed Luhn check! Invalid."], []⟩ :=
  luhn_error_aborts "4539578763621487" "12/24" "Ada" 123 6 2024
    (by decide) (by decide) (by decide)

/-- C9: every run exits with status 0, and every error branch (format,
Luhn, unexpected) reports its condition as text on the error stream. -/
theorem exit_code_always_zero :
    ∀ (number expiry holder : String) (cvv cm cy : Int),
      (runMain number expiry holder cvv cm cy).exitCode = 0 ∧
      ((runMain number expiry holder cvv cm cy).outcome = .formatError ∨
        (runMain number expiry holder cvv cm cy).outcome = .luhnError ∨
        (runMain number expiry holder cvv cm cy).outcome = .unexpectedError →
        (runMain number expiry holder cvv cm cy).errStream ≠ []) := by
  intro number expiry holder cvv cm cy
  unfold runMain
  split_ifs with hf hl
  · simp
  · simp
  · cases hexp : parseExpiry expiry with
    | none => simp [hexp]
    | some my => simp [hexp]

/-- Witness for C9: a format-error run exits 0 and leaves an error line. -/
theorem exit_code_always_zero_witness :
    (runMain "12" "12/24" "Ada" 123 6 2024).exitCode = 0 ∧
    (runMain "12" "12/24" "Ada" 123 6 2024).errStream ≠ [] :=
  ⟨(exit_code_always_zero "12" "12/24" "Ada" 123 6 2024).1,
    (exit_code_always_zero "12" "12/24" "Ada" 123 6 2024).2 (Or.inl (by decide))⟩

end CardValidator
